import Mathlib

/-!
Verification of the WebsiteCrawler repository core against its
natural-language specification.  The Lean definitions below are a shallow
embedding of the Python sources src/website_crawler/helper.py, job.py,
handler.py, processor.py and runner.py.  External effects are made
explicit: parsed URLs are six-component records mirroring
urllib.parse.ParseResult, the HTTP fetch performed by the processor is an
input (either an SSL error or a response record), and the filesystem is a
finite map from paths to file contents.  The package is embedded in its
default configuration (DEFAULT_JOB_MANAGER_FULL_MODE is False, so the job
manager stores remote-path strings, not full jobs).  Known import slips in
the sources (processor.py uses the requests and helper modules without
importing them, and job.py imports the constant under the name
DEFAULT_USER_AGENT_STRING while constants.py spells it DEFAULT_USER_AGENT)
are resolved to the evident intent: the embedding models the functions as
if the names resolved to the library and constant they refer to.
-/

/-- Six-component result of urllib.parse.urlparse, in field order
scheme, netloc, path, params, query, fragment. -/
structure ParseResult where
  scheme : String
  netloc : String
  path : String
  params : String
  query : String
  fragment : String
  deriving DecidableEq

/-- The uses_netloc list of urllib.parse (CPython 3.11). -/
def uses_netloc : List String :=
  ["", "ftp", "http", "gopher", "nntp", "telnet", "imap", "wais", "file", "mms",
   "https", "shttp", "snews", "prospero", "rtsp", "rtsps", "rtspu", "rsync",
   "svn", "svn+ssh", "sftp", "nfs", "git", "git+ssh", "ws", "wss"]

/-- CPython 3.11 urllib.parse.urlunsplit on the five components it
receives: the authority marker is added when a netloc is present, or when
the scheme is a netloc-using one and the path does not already start with
two slashes. -/
def urlunsplit (scheme netloc url query fragment : String) : String :=
  let url1 :=
    if netloc ≠ "" ∨ (scheme ≠ "" ∧ uses_netloc.contains scheme ∧ ¬ url.startsWith "//") then
      "//" ++ netloc ++ (if url ≠ "" ∧ ¬ url.startsWith "/" then "/" ++ url else url)
    else url
  let url2 := if scheme ≠ "" then scheme ++ ":" ++ url1 else url1
  let url3 := if query ≠ "" then url2 ++ "?" ++ query else url2
  if fragment ≠ "" then url3 ++ "#" ++ fragment else url3

/-- CPython urllib.parse.urlunparse, also the geturl method of a
ParseResult: merge params into the path, then delegate to urlunsplit. -/
def urlunparse (u : ParseResult) : String :=
  let url := if u.params ≠ "" then u.path ++ ";" ++ u.params else u.path
  urlunsplit u.scheme u.netloc url u.query u.fragment

/-- helper.remove_dot_segments: drop empty and dot segments, let a
double-dot segment pop the previous one, and rebuild the path with a
leading slash. -/
def remove_dot_segments (path : String) : String :=
  let out := (path.splitOn "/").foldl
    (fun out seg =>
      if seg = "" ∨ seg = "." then out
      else if seg = ".." then out.dropLast
      else out ++ [seg]) []
  "/" ++ "/".intercalate out

/-- merge_paths, the local helper inside helper.find_absolute_reference:
b is forced to start with a slash, then either replaces the whole path
(authority with empty path) or is appended to the directory part of the
base path. -/
def merge_paths (a : ParseResult) (b : String) : String :=
  let b := if b.startsWith "/" then b else "/" ++ b
  if a.netloc ≠ "" ∧ a.path = "" then b
  else "/".intercalate ((a.path.splitOn "/").dropLast) ++ b

/-- Tail of helper.find_absolute_reference, everything after the scheme
dispatch: reject foreign network locations, return same-origin absolute
targets, and otherwise resolve a relative reference against the base. -/
def find_absolute_reference_rest (scheme netloc path params query : String)
    (domain : String) (base : ParseResult) : Option String :=
  if netloc ≠ "" ∧ netloc.toLower ≠ domain.toLower then none
  else if netloc ≠ "" then
    some (urlunparse ⟨scheme, netloc, remove_dot_segments path, params, query, ""⟩)
  else
    let netloc := domain
    if path = "" then
      let path := base.path
      let query := if query = "" then base.query else query
      some (urlunparse ⟨scheme, netloc, remove_dot_segments path, params, query, ""⟩)
    else
      let path :=
        if path.startsWith "/" then remove_dot_segments path
        else remove_dot_segments (merge_paths base path)
      some (urlunparse ⟨scheme, netloc, remove_dot_segments path, params, query, ""⟩)

/-- helper.find_absolute_reference, taking the already parsed target (the
Python function first calls urllib.parse.urlparse on its string argument
and then only works with the six components, which is where this
embedding starts). -/
def find_absolute_reference (target : ParseResult) (domain : String)
    (remote_url : ParseResult) (https_mode : Nat)
    (base : Option ParseResult) : Option String :=
  let base := base.getD remote_url
  let scheme := target.scheme
  let netloc := target.netloc
  let path := target.path
  let params := target.params
  let query := target.query
  if scheme ≠ "" ∧ ¬ (["http", "https"].contains scheme.toLower) then none
  else if scheme = "" then
    let scheme :=
      if https_mode = 0 then remote_url.scheme
      else if https_mode = 1 ∨ https_mode = 3 then "https"
      else if https_mode = 2 then "http"
      else scheme
    find_absolute_reference_rest scheme netloc path params query domain base
  else if netloc ≠ "" ∧ netloc.toLower = domain.toLower then
    some (urlunparse ⟨scheme, netloc, remove_dot_segments path, params, query, ""⟩)
  else
    find_absolute_reference_rest scheme netloc path params query domain base

/-- constants.DEFAULT_ASCII_REPLACEMENT_CHAR. -/
def DEFAULT_ASCII_REPLACEMENT_CHAR : String := "_"

/-- helper.SMALL_ASCII_CONVERSION_TABLE. -/
def SMALL_ASCII_CONVERSION_TABLE : List (String × String) :=
  [("ä", "ae"), ("Ä", "Ae"), ("ö", "oe"), ("Ö", "Oe"),
   ("ü", "ue"), ("Ü", "Ue"), ("ß", "ss")]

/-- helper.convert_to_ascii_only: keep ASCII characters, replace mapped
characters by their mapping and everything else by the fallback. -/
def convert_to_ascii_only (s : String) (mapping : List (String × String))
    (fallback : String) : String :=
  String.join (s.toList.map (fun c =>
    if c.toNat < 128 then String.singleton c
    else
      match mapping.find? (fun kv => kv.1 == String.singleton c) with
      | some kv => kv.2
      | none => fallback))

/-- The two analyze implementations among the default handler classes.
The dummy implementation (_DummyContentHandler.analyze, used by the
plaintext, CSS and JavaScript handlers) returns job.response.text and
touches nothing else on the job.  The HTML implementation
(HTMLContentHandler.analyze) parses the document and then reads
job.options.include_hyperlinks — but DownloadJob declares __slots__
without an options attribute and its constructor can never set one, so
this access raises AttributeError deterministically, before any
reference is discovered or any attribute of the job is mutated. -/
inductive AnalyzeImpl where
  | dummy
  | html
  deriving DecidableEq

/-- A content handler class: its MIME_TYPE class variable and which of
the two analyze implementations it carries. -/
structure ContentHandler where
  MIME_TYPE : List String
  analyzeImpl : AnalyzeImpl
  deriving DecidableEq

/-- BaseContentHandler.accepts: lowercase the content type, cut the
parameters after the semicolon, strip whitespace, and test membership in
the lowercased MIME_TYPE list. -/
def ContentHandler.accepts (cls : ContentHandler) (content_type : String) : Bool :=
  (cls.MIME_TYPE.map (fun s => s.toLower)).contains
    (((content_type.toLower.splitOn ";").headD "").trim)

/-- handler.PlaintextContentHandler (dummy pass-through analyze). -/
def PlaintextContentHandler : ContentHandler := ⟨["text/plain"], AnalyzeImpl.dummy⟩

/-- handler.HTMLContentHandler (its analyze raises AttributeError on
job.options). -/
def HTMLContentHandler : ContentHandler := ⟨["text/html"], AnalyzeImpl.html⟩

/-- handler.CSSContentHandler (dummy pass-through analyze). -/
def CSSContentHandler : ContentHandler := ⟨["text/css"], AnalyzeImpl.dummy⟩

/-- handler.JavaScriptContentHandler (dummy pass-through analyze). -/
def JavaScriptContentHandler : ContentHandler := ⟨["application/javascript"], AnalyzeImpl.dummy⟩

/-- handler.ALL_DEFAULT_HANDLER_CLASSES, in source order. -/
def ALL_DEFAULT_HANDLER_CLASSES : List ContentHandler :=
  [PlaintextContentHandler, HTMLContentHandler,
   CSSContentHandler, JavaScriptContentHandler]

/-- A Python value as far as the crawler inspects one: a text string, a
bytes value, None, or a value of any other type (which save rejects). -/
inductive PyVal where
  | str (s : String)
  | bytes (b : String)
  | pynone
  | other
  deriving DecidableEq

/-- The parts of a requests.Response the sources touch or that the
specification talks about: status code, header mapping, raw body, the
redirect history (URLs of the intermediate responses) and the final URL.
The processor source reads only status_code, headers and content. -/
structure HTTPResponse where
  status_code : Int
  headers : List (String × String)
  content : String
  history : List ParseResult
  url : String
  deriving DecidableEq

/-- constants.DEFAULT_USER_AGENT (imported by job.py under the name
DEFAULT_USER_AGENT_STRING). -/
def DEFAULT_USER_AGENT_STRING : String := "Mozilla/5.0 (compatible; WebsiteCrawler)"

/-- constants.DEFAULT_ACCEPTED_RESPONSE_CODES. -/
def DEFAULT_ACCEPTED_RESPONSE_CODES : List Int := [200]

/-- job.DownloadJob: one unit of crawl work.  The logger field is dropped
(pure logging), the exception field is modelled as a flag recording
whether an exception object was stored, and the response is the modelled
HTTPResponse.  The references set is modelled as a duplicate-free list in
insertion order. -/
structure DownloadJob where
  remote_path : String
  remote_url : ParseResult
  netloc : String
  response : Option HTTPResponse
  response_code : Option Int
  response_type : Option String
  handler : List ContentHandler
  references : List String
  local_base : String
  local_path : Option String
  final_content : PyVal
  https_mode : Nat
  user_agent : String
  prettify : Bool
  allow_rewrites : Bool
  allow_overwrites : Bool
  mention_overwrites : Bool
  started : Bool
  delayed : Bool
  analyzed : Bool
  written : Bool
  overwritten : Bool
  finished : Bool
  exception : Bool
  deriving DecidableEq

/-- DownloadJob.__init__ given an already determined remote_path string
and its parse result, with every option at its constructor default (no
kwargs; this is how every job in the repository is actually built: the
seed job, copies for references, and scheme-fallback copies all pass no
kwargs).  The constructor checks that netloc is nonempty and that
local_base is an existing directory and raises ValueError otherwise; jobs
built by the crawler always satisfy both (references resolved by
find_absolute_reference carry the origin netloc), so the embedding keeps
the constructor total. -/
def DownloadJob.init (remote_path : String) (remote_url : ParseResult)
    (local_base : String) (handler : List ContentHandler) : DownloadJob :=
  { remote_path := remote_path
    remote_url := remote_url
    netloc := remote_url.netloc
    response := none
    response_code := none
    response_type := none
    handler := handler
    references := []
    local_base := local_base
    local_path := none
    final_content := PyVal.pynone
    https_mode := 0
    user_agent := DEFAULT_USER_AGENT_STRING
    prettify := false
    allow_rewrites := true
    allow_overwrites := true
    mention_overwrites := false
    started := false
    delayed := false
    analyzed := false
    written := false
    overwritten := false
    finished := false
    exception := false }

/-- DownloadJob.copy with a ParseResult (or None) remote argument: a new
job for the given URL with the same local base and handler list and no
progress; remote_path is recomputed by geturl, options fall back to the
constructor defaults because copy forwards no kwargs. -/
def DownloadJob.copy (self : DownloadJob) (remote : Option ParseResult) : DownloadJob :=
  let u := remote.getD self.remote_url
  DownloadJob.init (urlunparse u) u self.local_base self.handler

/-- DownloadJob.copy with a string remote argument: the string is kept as
remote_path and parsed by urllib.parse.urlparse, which the embedding
receives as the parse argument. -/
def DownloadJob.copyStr (self : DownloadJob) (parse : String → ParseResult)
    (remote : String) : DownloadJob :=
  DownloadJob.init remote (parse remote) self.local_base self.handler

/-- DownloadJob.__eq__: equality of the two parsed remote URLs after
replacing the fragment component by the empty string. -/
def DownloadJob.eq (self other : DownloadJob) : Bool :=
  decide ({ self.remote_url with fragment := "" } =
          { other.remote_url with fragment := "" })

/-- Python dict assignment d[k] = v on an insertion-ordered association
list: overwrite in place if the key exists, else append. -/
def pyDictInsert {α : Type} (d : List (String × α)) (k : String) (v : α) :
    List (String × α) :=
  if d.any (fun kv => kv.1 == k) then
    d.map (fun kv => if kv.1 == k then (k, v) else kv)
  else d ++ [(k, v)]

/-- Python dict lookup d.get(k) on an association list. -/
def pyDictLookup {α : Type} (d : List (String × α)) (k : String) : Option α :=
  (d.find? (fun kv => kv.1 == k)).map (fun kv => kv.2)

/-- constants.DEFAULT_JOB_MANAGER_FULL_MODE. -/
def DEFAULT_JOB_MANAGER_FULL_MODE : Bool := false

/-- job.JobManager in its default (non-full) mode, the mode every claim
concerns and the one the Downloader uses: the pending FIFO queue of jobs,
the reserved list of remote-path strings, the storage dict from
remote-path strings to response codes, the unfinished-tasks counter of
the underlying queue.Queue (incremented by put, decremented by task_done
inside complete, raising ValueError when it would go negative), and the
accepted response codes.  A single mutex guards every method, so a
concurrent history is a serialization of the operations. -/
structure JobManager where
  queue : List DownloadJob
  reserved : List String
  storage : List (String × Option Int)
  unfinished : Nat
  successful : List Int
  deriving DecidableEq

/-- JobManager.__init__ with the default arguments. -/
def JobManager.mkDefault : JobManager :=
  { queue := [], reserved := [], storage := [], unfinished := 0,
    successful := DEFAULT_ACCEPTED_RESPONSE_CODES }

/-- JobManager.check in non-full mode: the remote_path string of the item
is in neither the reserved list nor the storage keys.  Note the key is
the remote_path exactly as constructed, fragment included. -/
def JobManager.check (m : JobManager) (item : DownloadJob) : Bool :=
  let reserved_contains := m.reserved.contains item.remote_path
  let storage_contains := m.storage.any (fun kv => kv.1 == item.remote_path)
  !reserved_contains && !storage_contains

/-- JobManager.put: enqueue the job only if check passes; a duplicate of a
reserved or completed key is silently dropped, while the pending queue
itself is never scanned for duplicates. -/
def JobManager.put (m : JobManager) (item : DownloadJob) : JobManager :=
  if m.check item then
    { m with queue := m.queue ++ [item], unfinished := m.unfinished + 1 }
  else m

/-- JobManager.get: pop the queue head and append its remote_path to the
reserved list; none models the queue.Empty timeout.  No deduplication
happens here: whatever is at the head is reserved and returned, even if
its key is already reserved or completed. -/
def JobManager.get (m : JobManager) : Option (DownloadJob × JobManager) :=
  match m.queue with
  | [] => none
  | item :: rest =>
      some (item, { m with queue := rest, reserved := m.reserved ++ [item.remote_path] })

/-- The item argument of JobManager.complete: a DownloadJob or a plain
URL string. -/
inductive CompleteItem where
  | job (j : DownloadJob)
  | url (s : String)
  deriving DecidableEq

/-- The two ways JobManager.complete can raise in non-full mode: the
explicit ValueError for a string item without an integer value, and the
ValueError raised by queue.Queue.task_done when complete has been called
more often than put. -/
inductive CompleteError where
  | valueErrorMissing
  | taskDoneTooMany
  deriving DecidableEq

/-- Python equality between a str and a DownloadJob: str.__eq__ returns
NotImplemented, DownloadJob.__eq__ requires a DownloadJob and also
returns NotImplemented, so the comparison falls back to object identity,
which is False.  Hence a DownloadJob item is never found in the reserved
list of strings kept in non-full mode. -/
def pyEqStrJob (_ : String) (_ : DownloadJob) : Bool := false

/-- JobManager.complete in non-full mode.  The returned state reflects all
mutations performed before a raise (Python does not roll back), and the
second component records the exception if one was raised: the membership
test against the reserved string list never succeeds for a job item (see
pyEqStrJob), the storage entry is written unconditionally (overwriting a
previous value for the key), and the final task_done call raises
ValueError without decrementing when the unfinished counter is zero. -/
def JobManager.complete (m : JobManager) (item : CompleteItem) (value : Option Int) :
    JobManager × Option CompleteError :=
  match item with
  | CompleteItem.url s =>
      match value with
      | none => (m, some CompleteError.valueErrorMissing)
      | some v =>
          let reserved2 := if m.reserved.contains s then m.reserved.erase s else m.reserved
          let storage2 := pyDictInsert m.storage s (some v)
          if m.unfinished = 0 then
            ({ m with reserved := reserved2, storage := storage2 },
             some CompleteError.taskDoneTooMany)
          else
            ({ m with reserved := reserved2, storage := storage2,
                      unfinished := m.unfinished - 1 }, none)
  | CompleteItem.job j =>
      let reserved2 :=
        if m.reserved.any (fun s => pyEqStrJob s j) then m.reserved else m.reserved
      let storage2 := pyDictInsert m.storage j.remote_path j.response_code
      if m.unfinished = 0 then
        ({ m with reserved := reserved2, storage := storage2 },
         some CompleteError.taskDoneTooMany)
      else
        ({ m with reserved := reserved2, storage := storage2,
                  unfinished := m.unfinished - 1 }, none)

/-- JobManager.pending property. -/
def JobManager.pendingCount (m : JobManager) : Nat := m.queue.length

/-- JobManager.reserved property. -/
def JobManager.reservedCount (m : JobManager) : Nat := m.reserved.length

/-- JobManager.completed property. -/
def JobManager.completedCount (m : JobManager) : Nat := m.storage.length

/-- JobManager.succeeded property: storage entries whose value is in the
successful list (an entry holding None is never successful). -/
def JobManager.succeededCount (m : JobManager) : Nat :=
  (m.storage.filter (fun kv =>
    match kv.2 with
    | some v => m.successful.contains v
    | none => false)).length

/-- One serialized call on the shared JobManager. -/
inductive MgrOp where
  | put (j : DownloadJob)
  | get
  | complete (item : CompleteItem) (value : Option Int)

/-- Observable outcome of one serialized JobManager call. -/
inductive MgrEvent where
  | putAccepted (j : DownloadJob)
  | putDropped (j : DownloadJob)
  | got (j : DownloadJob)
  | gotEmpty
  | completed (error : Option CompleteError)

/-- Execute one JobManager call and record its outcome.  A complete call
that raises still leaves its mutations behind; the sequence continues, as
the raise only unwinds the calling thread. -/
def JobManager.step (m : JobManager) : MgrOp → JobManager × MgrEvent
  | MgrOp.put j =>
      (m.put j, if m.check j then MgrEvent.putAccepted j else MgrEvent.putDropped j)
  | MgrOp.get =>
      match m.get with
      | none => (m, MgrEvent.gotEmpty)
      | some (j, m2) => (m2, MgrEvent.got j)
  | MgrOp.complete item value =>
      ((m.complete item value).1, MgrEvent.completed (m.complete item value).2)

/-- Execute a serialized sequence of JobManager calls, returning the final
state and the event trace. -/
def JobManager.runOps (m : JobManager) : List MgrOp → JobManager × List MgrEvent
  | [] => (m, [])
  | op :: rest =>
      (((m.step op).1.runOps rest).1, (m.step op).2 :: ((m.step op).1.runOps rest).2)

/-- Number of queued jobs whose dedup key (remote_path) is k. -/
def pendingKeyCount (k : String) (m : JobManager) : Nat :=
  m.queue.countP (fun j => j.remote_path == k)

/-- Whether an event is a get call returning a job with key k. -/
def isGotKey (k : String) : MgrEvent → Bool
  | MgrEvent.got j => j.remote_path == k
  | _ => false

/-- Whether an event is a put call that actually enqueued a job with
key k (a put whose check passed). -/
def isAcceptedKey (k : String) : MgrEvent → Bool
  | MgrEvent.putAccepted j => j.remote_path == k
  | _ => false

/-- Number of get calls in the trace that returned a job with key k, that
is, how often key k was handed to a processor. -/
def gotKeyCount (k : String) (evs : List MgrEvent) : Nat :=
  evs.countP (isGotKey k)

/-- Number of put calls in the trace that actually enqueued a job with
key k. -/
def acceptedKeyCount (k : String) (evs : List MgrEvent) : Nat :=
  evs.countP (isAcceptedKey k)

/-- The local filesystem as the processor sees it: a finite map from
paths to file contents (directories are created on demand by save and
carry no content of their own). -/
structure FS where
  files : List (String × PyVal)
  deriving DecidableEq

/-- os.path.exists on the modelled filesystem. -/
def FS.existsPath (fs : FS) (p : String) : Bool :=
  fs.files.any (fun kv => kv.1 == p)

/-- Writing a file, overwriting any previous content at the path. -/
def FS.write (fs : FS) (p : String) (v : PyVal) : FS :=
  ⟨pyDictInsert fs.files p v⟩

/-- The empty filesystem. -/
def FS.emptyFS : FS := ⟨[]⟩

/-- Result of BaseProcessor.save: a returned boolean, or the TypeError
raised for a final content that is neither str nor bytes. -/
inductive SaveReturn where
  | ret (b : Bool)
  | raisedTypeError
  deriving DecidableEq

/-- BaseProcessor.save: gracefully return False when local_path or
final_content is unset; when the target exists and overwrites are not
allowed, mark written False / finished True and return True without
touching the disk; otherwise raise TypeError for a content that is
neither str nor bytes, else write the file and mark written True and
overwritten according to prior existence.  The returned job carries the
flag mutations. -/
def BaseProcessor.save (fs : FS) (job : DownloadJob) :
    FS × DownloadJob × SaveReturn :=
  if job.local_path = none ∨ job.final_content = PyVal.pynone then
    (fs, job, SaveReturn.ret false)
  else
    let p := job.local_path.getD ""
    if fs.existsPath p ∧ ¬ job.allow_overwrites then
      (fs, { job with written := false, finished := true }, SaveReturn.ret true)
    else
      let overwritten := fs.existsPath p
      match job.final_content with
      | PyVal.str s =>
          (fs.write p (PyVal.str s),
           { job with written := true, overwritten := overwritten }, SaveReturn.ret true)
      | PyVal.bytes b =>
          (fs.write p (PyVal.bytes b),
           { job with written := true, overwritten := overwritten }, SaveReturn.ret true)
      | _ => (fs, job, SaveReturn.raisedTypeError)

/-- The options dictionary handed to DownloadProcessor (the Runner
default and the dictionary the Downloader passes are both empty; the two
keys the processor reads are boolean-valued, so the values are modelled
as booleans). -/
abbrev RunOptions := List (String × Bool)

/-- Python dict get with a default, as options.get is used in run. -/
def optionsGet (options : RunOptions) (key : String) (default : Bool) : Bool :=
  match options.find? (fun kv => kv.1 == key) with
  | some kv => kv.2
  | none => default

/-- Outcome of the requests.get call inside DownloadProcessor.run: either
the SSLError the code catches, or a response. -/
inductive FetchOutcome where
  | sslError
  | resp (r : HTTPResponse)
  deriving DecidableEq

/-- Exceptions that can escape DownloadProcessor.run: the AttributeError
from calling accepts on a None content type, the AttributeError from
HTMLContentHandler.analyze reading the nonexistent job.options, the
TypeError from unpacking a nonempty options dictionary into the
keyword-less analyze class methods, and the TypeError raised by save. -/
inductive RunError where
  | attributeError
  | attributeErrorOptions
  | typeErrorKwargs
  | typeError
  deriving DecidableEq

/-- Return behaviour of DownloadProcessor.run: a returned boolean or an
escaped exception. -/
inductive RunReturn where
  | ret (b : Bool)
  | raised (e : RunError)
  deriving DecidableEq

/-- Observable result of one DownloadProcessor.run call: the mutated job,
the descendants list of the processor, the filesystem, the return
behaviour, and whether the HTTP fetch was issued (requests.get reached). -/
structure RunResult where
  job : DownloadJob
  descendants : List DownloadJob
  fs : FS
  outcome : RunReturn
  fetched : Bool
  deriving DecidableEq

/-- The header scan of DownloadProcessor.run: every header whose
lowercased name is content-type overwrites response_type, so the last
match wins and the initial value survives when no header matches. -/
def findContentType (headers : List (String × String)) (initial : Option String) :
    Option String :=
  headers.foldl (fun acc kv => if kv.1.toLower == "content-type" then some kv.2 else acc)
    initial

/-- Python equality between an int and a str is always False (the
comparison is well defined across types and no exception is raised).
The source tests len(path) == "" with this semantics. -/
def pyIntEqStr (_ : Nat) (_ : String) : Bool := false

/-- os.path.join for the two-argument posix cases the processor uses. -/
def osPathJoin (a b : String) : String :=
  if b.startsWith "/" then b
  else if a = "" ∨ a.endsWith "/" then a ++ b
  else a ++ "/" ++ b

/-- The local path computation of DownloadProcessor.run: take the URL
path, optionally fold to ASCII and lowercase, strip one leading slash,
compare len(path) to the empty string (always False in Python, so the
index.html default for an empty path is dead code), join with the local
base, and append index.html when the join ends in a slash. -/
def computeLocalPath (job : DownloadJob) (options : RunOptions) : String :=
  let path := job.remote_url.path
  let path :=
    if optionsGet options "ascii_only" false then
      convert_to_ascii_only path SMALL_ASCII_CONVERSION_TABLE DEFAULT_ASCII_REPLACEMENT_CHAR
    else path
  let path := if optionsGet options "lowered" false then path.toLower else path
  let path := if path.startsWith "/" then path.drop 1 else path
  let path := if pyIntEqStr path.length "" then "index.html" else path
  let local_path := osPathJoin job.local_base path
  if local_path.endsWith "/" then osPathJoin local_path "index.html" else local_path

/-- Python set.add iterated over a list: append each element not yet
present. -/
def pySetExtend (s : List String) (new : List String) : List String :=
  new.foldl (fun acc r => if acc.contains r then acc else acc ++ [r]) s

/-- DownloadProcessor.run.  The guard for an already started job only
logs a warning and continues; started is then set and requests.get is
issued unconditionally (the fetched flag records this).  An SSLError
stores the exception and, under https_mode 3 with an https URL, appends
one descendant built by DownloadJob.copy with the scheme replaced by
http; the delayed flag is not touched on this path.  A non-200 status
sets delayed and returns False.  Otherwise the content type is read from
the headers (no fallback: if no content-type header exists the first
accepts call raises AttributeError on None, unless the handler list is
empty).  Handler dispatch then calls analyze on the first accepting
handler class: the call itself raises TypeError when the options
dictionary is nonempty (the analyze class methods take no keyword
arguments; the Runner always passes the empty dictionary), the HTML
implementation raises AttributeError on the nonexistent job.options
before touching the job, and the dummy implementations return
job.response.text; with no accepting handler the raw response bytes are
used.  The computed content value is bound to a local variable and only
ever logged — run never assigns final_content — so no default handler
adds references and save always takes its early False return for a
fresh job.  After dispatch the local path is computed, save runs, and
finished is set before returning True.  The redirect history of the
response is never inspected anywhere. -/
def DownloadProcessor.run (job : DownloadJob) (options : RunOptions)
    (fetch : FetchOutcome) (fs : FS) : RunResult :=
  let job := { job with started := true }
  match fetch with
  | FetchOutcome.sslError =>
      let job := { job with exception := true }
      let descendants :=
        if job.https_mode = 3 ∧ job.remote_url.scheme = "https" then
          [job.copy (some { job.remote_url with scheme := "http" })]
        else []
      { job := job, descendants := descendants, fs := fs,
        outcome := RunReturn.ret false, fetched := true }
  | FetchOutcome.resp r =>
      let job := { job with response := some r, response_code := some r.status_code }
      if r.status_code ≠ 200 then
        let job := { job with delayed := true }
        { job := job, descendants := [], fs := fs,
          outcome := RunReturn.ret false, fetched := true }
      else
        let job := { job with response_type := findContentType r.headers job.response_type }
        let finishUp : DownloadJob → RunResult := fun job0 =>
          let job1 := { job0 with local_path := some (computeLocalPath job0 options) }
          let saved := BaseProcessor.save fs job1
          match saved.2.2 with
          | SaveReturn.raisedTypeError =>
              { job := saved.2.1, descendants := [], fs := saved.1,
                outcome := RunReturn.raised RunError.typeError, fetched := true }
          | SaveReturn.ret _ =>
              { job := { saved.2.1 with finished := true }, descendants := [],
                fs := saved.1, outcome := RunReturn.ret true, fetched := true }
        match job.response_type with
        | none =>
            match job.handler with
            | [] => finishUp job
            | _ :: _ =>
                { job := job, descendants := [], fs := fs,
                  outcome := RunReturn.raised RunError.attributeError, fetched := true }
        | some ct =>
            match job.handler.find? (fun h => h.accepts ct) with
            | some cls =>
                if options.isEmpty then
                  match cls.analyzeImpl with
                  | AnalyzeImpl.html =>
                      { job := job, descendants := [], fs := fs,
                        outcome := RunReturn.raised RunError.attributeErrorOptions,
                        fetched := true }
                  | AnalyzeImpl.dummy => finishUp job
                else
                  { job := job, descendants := [], fs := fs,
                    outcome := RunReturn.raised RunError.typeErrorKwargs,
                    fetched := true }
            | none => finishUp job

/-- The duplicate-free view Python set(xs) gives of a list, in first
occurrence order (the iteration order of a CPython set is unspecified;
the completion count proved below does not depend on it). -/
def pySetList (l : List String) : List String := pySetExtend [] l

/-- runner.RunnerState. -/
inductive RunnerState where
  | CREATED
  | WORKING
  | WAITING
  | ENDING
  | EXITED
  | CRASHED
  deriving DecidableEq

/-- A call the runner loop body makes on the shared JobManager after a
successful get. -/
inductive MgrCall where
  | putCall (item : DownloadJob)
  | completeCall (item : DownloadJob)
  deriving DecidableEq

/-- Whether a manager call is a complete call. -/
def MgrCall.isComplete : MgrCall → Bool
  | MgrCall.completeCall _ => true
  | _ => false

/-- Abstract outcome of worker.run() inside the runner loop: the worker
returned a boolean, or it raised.  jobAfter is current_job at that
moment, carrying whatever mutations the processor made; descendants is
the descendants list of the worker.  DownloadProcessor.run results embed
via WorkerOutcome.ofRun, and any other exception a processor could raise
is covered by the exc case. -/
inductive WorkerOutcome where
  | ret (success : Bool) (jobAfter : DownloadJob) (descendants : List DownloadJob)
  | exc (jobAfter : DownloadJob)

/-- The job the runner holds when the guarded block finishes. -/
def WorkerOutcome.jobAfter : WorkerOutcome → DownloadJob
  | WorkerOutcome.ret _ j _ => j
  | WorkerOutcome.exc j => j

/-- View of a DownloadProcessor.run result as a worker outcome. -/
def WorkerOutcome.ofRun (r : RunResult) : WorkerOutcome :=
  match r.outcome with
  | RunReturn.ret b => WorkerOutcome.ret b r.job r.descendants
  | RunReturn.raised _ => WorkerOutcome.exc r.job

/-- Result of one runner loop iteration after a successful get: the
sequence of JobManager calls it makes, the runner state afterwards, and
whether the exception was re-raised. -/
structure IterationResult where
  calls : List MgrCall
  state : RunnerState
  reRaised : Bool

/-- One iteration of Runner.run after a successful get, lines 85 to 108
of runner.py: on normal worker return, put every descendant, then put a
copy of the current job for every discovered reference (the references
set, copies built with the string variant of DownloadJob.copy, parse
standing for urllib.parse.urlparse); on a worker exception, skip the
puts, record the exception, and crash only when crash_on_error is set.
In every case the finally block calls complete on the current job. -/
def Runner.iteration (parse : String → ParseResult) (outcome : WorkerOutcome)
    (crash_on_error : Bool) : IterationResult :=
  match outcome with
  | WorkerOutcome.ret _ jobAfter descendants =>
      { calls := descendants.map MgrCall.putCall
          ++ (pySetList jobAfter.references).map
              (fun r => MgrCall.putCall (jobAfter.copyStr parse r))
          ++ [MgrCall.completeCall jobAfter],
        state := RunnerState.WORKING,
        reRaised := false }
  | WorkerOutcome.exc jobAfter =>
      { calls := [MgrCall.completeCall jobAfter],
        state := if crash_on_error then RunnerState.CRASHED else RunnerState.WORKING,
        reRaised := crash_on_error }

/-- Effect of one runner manager call on the JobManager: put with the
job item, or complete with the job item and no value argument, exactly
as runner.py invokes them. -/
def MgrCall.applyTo (m : JobManager) : MgrCall → JobManager
  | MgrCall.putCall j => m.put j
  | MgrCall.completeCall j => (m.complete (CompleteItem.job j) none).1

/-- A mirror root used by the concrete jobs below. -/
def exampleBase : String := "/tmp/mirror"

/-- A concrete job for the URL http of example.com slash, as the seed job
of the Downloader builds it. -/
def exampleJobHttp : DownloadJob :=
  DownloadJob.init "http://example.com/" ⟨"http", "example.com", "/", "", "", ""⟩
    exampleBase ALL_DEFAULT_HANDLER_CLASSES

/-- A concrete https job running under https_mode 3
(HTTPSFirstFallbackHTTP). -/
def exampleJobHttps3 : DownloadJob :=
  { DownloadJob.init "https://example.com/" ⟨"https", "example.com", "/", "", "", ""⟩
      exampleBase ALL_DEFAULT_HANDLER_CLASSES with https_mode := 3 }

/-- A concrete job whose URL carries fragment 1. -/
def exampleJobFrag1 : DownloadJob :=
  DownloadJob.init "http://example.com/x#1" ⟨"http", "example.com", "/x", "", "", "1"⟩
    exampleBase ALL_DEFAULT_HANDLER_CLASSES

/-- A concrete job whose URL carries fragment 2 and is otherwise equal to
exampleJobFrag1. -/
def exampleJobFrag2 : DownloadJob :=
  DownloadJob.init "http://example.com/x#2" ⟨"http", "example.com", "/x", "", "", "2"⟩
    exampleBase ALL_DEFAULT_HANDLER_CLASSES

/-- The manager state reached from a fresh manager by putting the
fragment-1 job and reserving it with get. -/
def exampleManagerFrag1 : JobManager :=
  (JobManager.mkDefault.runOps [MgrOp.put exampleJobFrag1, MgrOp.get]).1

/-- A concrete job for the path a on example.com. -/
def exampleJobPathA : DownloadJob :=
  DownloadJob.init "http://example.com/a" ⟨"http", "example.com", "/a", "", "", ""⟩
    exampleBase ALL_DEFAULT_HANDLER_CLASSES

/-- The options dictionary as the Runner passes it: empty (the Downloader
hands every runner a literal empty dictionary). -/
def exampleOptions : RunOptions := []

/-- A plain 200 response with a text/plain content type (handled by the
pass-through plaintext handler) and no redirects. -/
def exampleResponseOk : HTTPResponse :=
  ⟨200, [("Content-Type", "text/plain")], "body", [], "http://example.com/"⟩

/-- A 200 text/plain response whose history records a redirect to the
host cdn.example, a different origin than example.com. -/
def exampleResponseRedirected : HTTPResponse :=
  ⟨200, [("Content-Type", "text/plain")], "body",
   [⟨"http", "cdn.example", "/a", "", "", ""⟩], "http://cdn.example/a"⟩

/-- A 200 response with a text/html content type and no redirects; on
such a response the selected handler is the HTML one, whose analyze
raises AttributeError on job.options. -/
def exampleResponseHtml : HTTPResponse :=
  ⟨200, [("Content-Type", "text/html")], "body", [], "http://example.com/"⟩

/-- A 200 response without any content-type header. -/
def exampleResponseNoCT : HTTPResponse :=
  ⟨200, [("Server", "nginx")], "data", [], "http://example.com/"⟩

/-- A job ready to save: computed local path, string content, overwrites
disallowed. -/
def exampleJobSave : DownloadJob :=
  { exampleJobPathA with local_path := some "/tmp/mirror/a",
                         final_content := PyVal.str "hello",
                         allow_overwrites := false }

/-- The same job as exampleJobSave but with the final content unset. -/
def exampleJobSaveNoContent : DownloadJob :=
  { exampleJobPathA with local_path := some "/tmp/mirror/a",
                         allow_overwrites := false }

/-- A filesystem already holding a file at the target path of
exampleJobSave. -/
def exampleFSWithA : FS := ⟨[("/tmp/mirror/a", PyVal.bytes "old")]⟩

/-- A parsed reference on the foreign host other.example. -/
def exampleTargetOther : ParseResult := ⟨"https", "other.example", "/x", "", "", ""⟩

/-- The parsed URL of a page on example.com. -/
def exampleRemoteHttps : ParseResult := ⟨"https", "example.com", "/", "", "", ""⟩

theorem complete_queue_eq (m : JobManager) (item : CompleteItem) (value : Option Int) :
    (m.complete item value).1.queue = m.queue := by
  cases item with
  | url s =>
      cases value with
      | none => rfl
      | some v =>
          simp only [JobManager.complete]
          split <;> rfl
  | job j =>
      simp only [JobManager.complete]
      split <;> rfl

theorem step_pending_conservation (m : JobManager) (op : MgrOp) (k : String) :
    pendingKeyCount k (m.step op).1 + (if isGotKey k (m.step op).2 then 1 else 0)
      = pendingKeyCount k m + (if isAcceptedKey k (m.step op).2 then 1 else 0) := by
  cases op with
  | put j =>
      simp only [JobManager.step, JobManager.put]
      by_cases h : m.check j
      · simp [h, pendingKeyCount, isGotKey, isAcceptedKey, List.countP_append,
              List.countP_cons]
      · simp [h, isGotKey, isAcceptedKey]
  | get =>
      cases hq : m.queue with
      | nil =>
          simp [JobManager.step, JobManager.get, hq, pendingKeyCount, isGotKey,
                isAcceptedKey]
      | cons j rest =>
          simp [JobManager.step, JobManager.get, hq, pendingKeyCount, isGotKey,
                isAcceptedKey, List.countP_cons]
  | complete item value =>
      simp [JobManager.step, pendingKeyCount, complete_queue_eq m item value,
            isGotKey, isAcceptedKey]

/-- C1.  The claim states that every legitimately enqueued dedup key is
returned by get exactly once, never more than once, in every
interleaving.  That is false (see the counterexample), because put only
rejects keys that are already reserved or completed, and get performs no
deduplication at all; the amended statement is the conservation law that
does hold over every serialized sequence of put, get and complete calls:
for every key, the copies still pending plus the number of times get
returned the key equal the number of accepted puts of the key.  So a key
is handed to processors exactly as often as it was accepted into the
queue before its first reservation or completion, which is exactly once
only when no duplicate put slipped in before the key became reserved or
completed. -/
theorem C1_pending_get_conservation (ops : List MgrOp) (m : JobManager) (k : String) :
    pendingKeyCount k (m.runOps ops).1 + gotKeyCount k (m.runOps ops).2
      = pendingKeyCount k m + acceptedKeyCount k (m.runOps ops).2 := by
  induction ops generalizing m with
  | nil => simp [JobManager.runOps, gotKeyCount, acceptedKeyCount]
  | cons op rest ih =>
      have hstep := step_pending_conservation m op k
      have hih := ih (m.step op).1
      simp only [JobManager.runOps]
      simp only [gotKeyCount, acceptedKeyCount, List.countP_cons] at hih hstep ⊢
      omega

/-- C1, counterexample to the claim as stated: the same job is put twice
before any get (both puts pass the check and are accepted, since the key
is neither reserved nor completed yet), and the two following get calls
each hand the key to a processor: the key is processed twice, not
exactly once. -/
theorem C1_put_get_duplicate_counterexample :
    acceptedKeyCount "http://example.com/"
        (JobManager.mkDefault.runOps
          [MgrOp.put exampleJobHttp, MgrOp.put exampleJobHttp, MgrOp.get, MgrOp.get]).2 = 2 ∧
    gotKeyCount "http://example.com/"
        (JobManager.mkDefault.runOps
          [MgrOp.put exampleJobHttp, MgrOp.put exampleJobHttp, MgrOp.get, MgrOp.get]).2 = 2 := by
  constructor <;> rfl

theorem filter_isComplete_map_putCall (l : List DownloadJob) :
    ((l.map MgrCall.putCall).filter MgrCall.isComplete) = [] := by
  induction l with
  | nil => rfl
  | cons a t ih => simp [MgrCall.isComplete, ih]

theorem filter_isComplete_map_putCall_fn {α : Type} (l : List α) (f : α → DownloadJob) :
    ((l.map (fun x => MgrCall.putCall (f x))).filter MgrCall.isComplete) = [] := by
  induction l with
  | nil => rfl
  | cons a t ih => simp [MgrCall.isComplete, ih]

/-- C2.  In one iteration of the runner loop after a successful get, the
sequence of JobManager calls contains exactly one complete call, and its
argument is the current job: this holds whether the worker returned
success, returned failure, or raised, and also when crash_on_error makes
the runner re-raise, because the complete call sits in the finally
block. -/
theorem C2_complete_called_exactly_once (parse : String → ParseResult)
    (outcome : WorkerOutcome) (crash_on_error : Bool) :
    ((Runner.iteration parse outcome crash_on_error).calls.filter MgrCall.isComplete)
      = [MgrCall.completeCall outcome.jobAfter] := by
  cases outcome with
  | ret success jobAfter descendants =>
      simp [Runner.iteration, WorkerOutcome.jobAfter, List.filter_append,
            filter_isComplete_map_putCall, filter_isComplete_map_putCall_fn,
            MgrCall.isComplete]
  | exc jobAfter =>
      simp [Runner.iteration, WorkerOutcome.jobAfter, MgrCall.isComplete]

/-- C3, amended.  On an SSL error under https_mode 3 with an https URL,
DownloadProcessor.run stores the exception, appends exactly one
descendant built by DownloadJob.copy for the same URL with the scheme
replaced by http, and returns False.  Contrary to the claim, the job is
not marked delayed on this path (the delayed flag is untouched, unlike
the non-200 path), and the descendant is not identical to the original
job apart from the scheme: copy forwards no options, so the descendant
carries the constructor defaults, in particular https_mode 0 instead of
the https_mode 3 of the original. -/
theorem C3_ssl_fallback_amended (job : DownloadJob) (options : RunOptions)
    (fs : FS)
    (h1 : job.https_mode = 3) (h2 : job.remote_url.scheme = "https") :
    DownloadProcessor.run job options FetchOutcome.sslError fs =
      { job := { job with started := true, exception := true },
        descendants := [DownloadJob.init
          (urlunparse { job.remote_url with scheme := "http" })
          { job.remote_url with scheme := "http" } job.local_base job.handler],
        fs := fs, outcome := RunReturn.ret false, fetched := true } := by
  simp [DownloadProcessor.run, DownloadJob.copy, h1, h2]

/-- C3, counterexample to the claim as stated: a fresh job for the URL
https of example.com slash with https_mode 3 hits an SSL error; run
returns False and queues the http descendant, but the delayed flag of
the original job stays False (the claim requires True), and the
descendant carries https_mode 0 where the original has 3, so it is not
identical to the original apart from the URL scheme. -/
theorem C3_ssl_fallback_counterexample :
    (DownloadProcessor.run exampleJobHttps3 exampleOptions FetchOutcome.sslError
        FS.emptyFS).job.delayed = false ∧
    (DownloadProcessor.run exampleJobHttps3 exampleOptions FetchOutcome.sslError
        FS.emptyFS).descendants.map (fun d => (d.remote_path, d.https_mode))
      = [("http://example.com/", 0)] ∧
    (DownloadProcessor.run exampleJobHttps3 exampleOptions FetchOutcome.sslError
        FS.emptyFS).outcome = RunReturn.ret false ∧
    exampleJobHttps3.https_mode = 3 := by
  refine ⟨?_, ?_, ?_, ?_⟩ <;> with_unfolding_all rfl

/-- C3, witness for the amended theorem at the concrete https job under
https_mode 3. -/
theorem C3_ssl_fallback_amended_witness :
    exampleJobHttps3.https_mode = 3 ∧ exampleJobHttps3.remote_url.scheme = "https" ∧
    (DownloadProcessor.run exampleJobHttps3 exampleOptions FetchOutcome.sslError
        FS.emptyFS).descendants.map (fun d => d.remote_path)
      = ["http://example.com/"] := by
  refine ⟨by with_unfolding_all rfl, by with_unfolding_all rfl, ?_⟩
  rw [C3_ssl_fallback_amended exampleJobHttps3 exampleOptions
      FS.emptyFS (by with_unfolding_all rfl) (by with_unfolding_all rfl)]
  with_unfolding_all rfl

/-- A text/html 200 response selects the HTML handler, whose analyze
dereferences job.options — an attribute DownloadJob does not define — so
run raises AttributeError out of the handler dispatch, before the local
path is computed or anything is saved. -/
theorem run_html_handler_raises :
    (DownloadProcessor.run exampleJobPathA exampleOptions
        (FetchOutcome.resp exampleResponseHtml) FS.emptyFS).outcome
      = RunReturn.raised RunError.attributeErrorOptions ∧
    (DownloadProcessor.run exampleJobPathA exampleOptions
        (FetchOutcome.resp exampleResponseHtml) FS.emptyFS).job.local_path = none ∧
    (DownloadProcessor.run exampleJobPathA exampleOptions
        (FetchOutcome.resp exampleResponseHtml) FS.emptyFS).fs = FS.emptyFS := by
  refine ⟨?_, ?_, ?_⟩ <;> with_unfolding_all rfl

theorem run_always_fetches (job : DownloadJob) (options : RunOptions)
    (fetch : FetchOutcome) (fs : FS) :
    (DownloadProcessor.run job options fetch fs).fetched = true := by
  cases fetch with
  | sslError => rfl
  | resp r =>
      simp only [DownloadProcessor.run]
      repeat' split
      all_goals rfl

/-- C5, amended.  The double-invocation guard in DownloadProcessor.run
only logs a warning: for a job whose started flag is already True the
processor still issues the HTTP fetch (requests.get is reached on every
path through run), so the invocation is not a no-op. -/
theorem C5_started_still_fetches_amended (job : DownloadJob) (options : RunOptions)
    (fetch : FetchOutcome) (fs : FS)
    (h : job.started = true) :
    (DownloadProcessor.run job options fetch fs).fetched = true :=
  run_always_fetches job options fetch fs

/-- C5, witness for the amended theorem at a concrete already started
job. -/
theorem C5_started_still_fetches_amended_witness :
    ({ exampleJobPathA with started := true } : DownloadJob).started = true ∧
    (DownloadProcessor.run { exampleJobPathA with started := true } exampleOptions
        (FetchOutcome.resp exampleResponseOk) FS.emptyFS).fetched = true :=
  ⟨by with_unfolding_all rfl,
   C5_started_still_fetches_amended { exampleJobPathA with started := true }
    exampleOptions (FetchOutcome.resp exampleResponseOk) FS.emptyFS
    (by with_unfolding_all rfl)⟩

/-- C5, counterexample to the claim as stated: a job whose started flag
is already True is run against a plain 200 text/plain response (the
pass-through plaintext handler, so no handler exception interferes); the
claim says the invocation is a no-op with no second fetch, but the fetch
is issued, the response is processed (response code 200 is recorded) and
run returns True. -/
theorem C5_started_guard_counterexample :
    (DownloadProcessor.run { exampleJobPathA with started := true } exampleOptions
        (FetchOutcome.resp exampleResponseOk) FS.emptyFS).fetched = true ∧
    (DownloadProcessor.run { exampleJobPathA with started := true } exampleOptions
        (FetchOutcome.resp exampleResponseOk) FS.emptyFS).job.response_code
      = some 200 ∧
    (DownloadProcessor.run { exampleJobPathA with started := true } exampleOptions
        (FetchOutcome.resp exampleResponseOk) FS.emptyFS).outcome
      = RunReturn.ret true := by
  refine ⟨?_, ?_, ?_⟩ <;> with_unfolding_all rfl

/-- C4, amended.  DownloadProcessor.run never inspects the redirect
history of the response: for a response with final status 200 whose
history ends in a cross-origin hop, a fresh job (final content still
None, options dictionary empty as the Runner always passes it) is
processed exactly like a direct 200 response whose content type resolves
the same way: no descendant is appended, the delayed flag is untouched,
and nothing is written.  The return value is determined by the selected
handler alone, not by the history: True with no accepting handler or
with a pass-through handler, and the AttributeError from
HTMLContentHandler.analyze reading the nonexistent job.options when the
HTML handler is selected.  In no case is the cross-origin redirect
detected, retried via a descendant, or marked delayed, as the claim
asserts. -/
theorem C4_no_redirect_handling_amended (job : DownloadJob) (options : RunOptions)
    (fs : FS) (r : HTTPResponse)
    (lastHop : ParseResult) (ct : String)
    (h200 : r.status_code = 200)
    (hlast : r.history.getLast? = some lastHop)
    (hcross : lastHop.netloc.toLower ≠ job.netloc.toLower)
    (hct : findContentType r.headers job.response_type = some ct)
    (hfc : job.final_content = PyVal.pynone)
    (hopts : options = []) :
    (DownloadProcessor.run job options (FetchOutcome.resp r) fs).descendants = [] ∧
    (DownloadProcessor.run job options (FetchOutcome.resp r) fs).job.delayed
        = job.delayed ∧
    (DownloadProcessor.run job options (FetchOutcome.resp r) fs).fs = fs ∧
    (DownloadProcessor.run job options (FetchOutcome.resp r) fs).outcome
        = (match job.handler.find? (fun h => h.accepts ct) with
           | some cls =>
               match cls.analyzeImpl with
               | AnalyzeImpl.html => RunReturn.raised RunError.attributeErrorOptions
               | AnalyzeImpl.dummy => RunReturn.ret true
           | none => RunReturn.ret true) := by
  subst hopts
  simp only [DownloadProcessor.run, h200, hct]
  simp only [BaseProcessor.save, hfc]
  split
  · next h => exact absurd rfl h
  · split
    · split
      · split <;> simp
      · next h => exact absurd rfl h
    · simp

/-- C4, counterexample to the claim as stated: the fetch of the page a
on example.com was redirected to the foreign host cdn.example (the
history records the hop and the final URL is on cdn.example) and the
response is text/plain, handled by the pass-through plaintext handler;
run treats the 200 response as a plain success: it returns True instead
of failure, appends no descendant for the new location, does not mark
the job delayed, and writes nothing. -/
theorem C4_redirect_counterexample :
    exampleResponseRedirected.history.map (fun h => h.netloc) = ["cdn.example"] ∧
    (DownloadProcessor.run exampleJobPathA exampleOptions
        (FetchOutcome.resp exampleResponseRedirected) FS.emptyFS).outcome
      = RunReturn.ret true ∧
    (DownloadProcessor.run exampleJobPathA exampleOptions
        (FetchOutcome.resp exampleResponseRedirected) FS.emptyFS).descendants
      = [] ∧
    (DownloadProcessor.run exampleJobPathA exampleOptions
        (FetchOutcome.resp exampleResponseRedirected) FS.emptyFS).job.delayed
      = false ∧
    (DownloadProcessor.run exampleJobPathA exampleOptions
        (FetchOutcome.resp exampleResponseRedirected) FS.emptyFS).fs
      = FS.emptyFS := by
  refine ⟨?_, ?_, ?_, ?_, ?_⟩ <;> with_unfolding_all rfl

/-- C4, witness for the amended theorem at the concrete redirected
text/plain response. -/
theorem C4_no_redirect_handling_amended_witness :
    exampleResponseRedirected.status_code = 200 ∧
    exampleResponseRedirected.history.getLast?
      = some ⟨"http", "cdn.example", "/a", "", "", ""⟩ ∧
    (DownloadProcessor.run exampleJobPathA exampleOptions
        (FetchOutcome.resp exampleResponseRedirected) FS.emptyFS).descendants = [] := by
  refine ⟨by with_unfolding_all rfl, by with_unfolding_all rfl, ?_⟩
  exact (C4_no_redirect_handling_amended exampleJobPathA exampleOptions
    FS.emptyFS exampleResponseRedirected ⟨"http", "cdn.example", "/a", "", "", ""⟩
    "text/plain" (by with_unfolding_all rfl) (by with_unfolding_all rfl)
    (of_decide_eq_true (by with_unfolding_all rfl)) (by with_unfolding_all rfl)
    (by with_unfolding_all rfl) rfl).1

theorem replaceFragment_eq_iff (u v : ParseResult) :
    ({ u with fragment := "" } = { v with fragment := "" })
      ↔ (u.scheme = v.scheme ∧ u.netloc = v.netloc ∧ u.path = v.path ∧
         u.params = v.params ∧ u.query = v.query) := by
  cases u
  cases v
  simp [ParseResult.mk.injEq]

/-- C6, amended.  The first half of the claim holds: DownloadJob equality
is equality of the parsed remote URLs with the fragment component
stripped (spelled out componentwise).  The second half is amended: the
key the JobManager uses for deduplication in its default (non-full) mode
is the remote_path string exactly as the job was constructed, fragment
included, not the fragment-stripped URL: put drops a job precisely when
that string is already in the reserved list or among the storage keys,
so two jobs that are equal under DownloadJob equality but differ in
fragment are not deduplicated against each other (see the
counterexample). -/
theorem C6_eq_and_dedup_key_amended :
    (∀ a b : DownloadJob, DownloadJob.eq a b = true ↔
      (a.remote_url.scheme = b.remote_url.scheme ∧
       a.remote_url.netloc = b.remote_url.netloc ∧
       a.remote_url.path = b.remote_url.path ∧
       a.remote_url.params = b.remote_url.params ∧
       a.remote_url.query = b.remote_url.query)) ∧
    (∀ (m : JobManager) (j : DownloadJob),
      (m.reserved.contains j.remote_path
        || m.storage.any (fun kv => kv.1 == j.remote_path)) = true →
      m.put j = m) := by
  constructor
  · intro a b
    simp only [DownloadJob.eq, decide_eq_true_eq, replaceFragment_eq_iff]
  · intro m j h
    have hc : m.check j = false := by
      simp only [JobManager.check]
      cases hr : m.reserved.contains j.remote_path <;>
        cases hs : m.storage.any (fun kv => kv.1 == j.remote_path) <;>
        simp_all
    simp [JobManager.put, hc]

/-- C6, witness for the amended theorem: after the fragment-1 job has
been put and reserved, a second put of the very same job is dropped. -/
theorem C6_eq_and_dedup_key_amended_witness :
    ((exampleManagerFrag1.reserved.contains exampleJobFrag1.remote_path
        || exampleManagerFrag1.storage.any
            (fun kv => kv.1 == exampleJobFrag1.remote_path)) = true) ∧
    exampleManagerFrag1.put exampleJobFrag1 = exampleManagerFrag1 :=
  ⟨by with_unfolding_all rfl,
   C6_eq_and_dedup_key_amended.2 exampleManagerFrag1 exampleJobFrag1
     (by with_unfolding_all rfl)⟩

/-- C6, counterexample to the claim as stated: the two jobs differ only
in the URL fragment, so they are equal under DownloadJob equality; the
fragment-1 job is reserved in the manager, yet check still accepts the
fragment-2 job and put enqueues it, because the dedup key is the full
remote_path string including the fragment. -/
theorem C6_dedup_key_counterexample :
    DownloadJob.eq exampleJobFrag1 exampleJobFrag2 = true ∧
    exampleManagerFrag1.reserved = ["http://example.com/x#1"] ∧
    exampleManagerFrag1.check exampleJobFrag2 = true ∧
    (exampleManagerFrag1.put exampleJobFrag2).queue = [exampleJobFrag2] := by
  refine ⟨?_, ?_, ?_, ?_⟩ <;> with_unfolding_all rfl

theorem findContentType_no_match (headers : List (String × String))
    (initial : Option String)
    (h : headers.all (fun kv => !(kv.1.toLower == "content-type")) = true) :
    findContentType headers initial = initial := by
  induction headers generalizing initial with
  | nil => rfl
  | cons kv t ih =>
      rw [List.all_cons, Bool.and_eq_true] at h
      cases hb : (kv.1.toLower == "content-type") with
      | true => rw [hb] at h; simp at h
      | false =>
          simp only [findContentType, List.foldl_cons]
          rw [if_neg]
          · exact ih initial h.2
          · simp [hb]

/-- C7, amended.  There is no filename-extension fallback: when the
response carries no content-type header (and the job had none recorded),
response_type stays None and the first handler-selection step calls
accepts on None, which raises AttributeError out of run (for any
nonempty handler list; the repository always uses
ALL_DEFAULT_HANDLER_CLASSES).  The claim that handler selection still
resolves to a handler or to raw bytes fails. -/
theorem C7_missing_content_type_amended (job : DownloadJob) (options : RunOptions)
    (r : HTTPResponse) (fs : FS)
    (hinit : job.response_type = none)
    (hhd : r.headers.all (fun kv => !(kv.1.toLower == "content-type")) = true)
    (h200 : r.status_code = 200)
    (hh : job.handler ≠ []) :
    (DownloadProcessor.run job options (FetchOutcome.resp r) fs).outcome
      = RunReturn.raised RunError.attributeError := by
  simp only [DownloadProcessor.run, h200, hinit]
  rw [findContentType_no_match r.headers none hhd]
  cases hj : job.handler with
  | nil => exact absurd hj hh
  | cons a l => simp

/-- C7, witness for the amended theorem at the concrete response without
a content-type header. -/
theorem C7_missing_content_type_amended_witness :
    exampleJobPathA.response_type = none ∧
    exampleResponseNoCT.headers.all (fun kv => !(kv.1.toLower == "content-type")) = true ∧
    (DownloadProcessor.run exampleJobPathA exampleOptions
        (FetchOutcome.resp exampleResponseNoCT) FS.emptyFS).outcome
      = RunReturn.raised RunError.attributeError := by
  refine ⟨by with_unfolding_all rfl, by with_unfolding_all rfl, ?_⟩
  exact C7_missing_content_type_amended exampleJobPathA exampleOptions
    exampleResponseNoCT FS.emptyFS (by with_unfolding_all rfl)
    (by with_unfolding_all rfl) (by with_unfolding_all rfl)
    (by with_unfolding_all exact fun hx => nomatch hx)

/-- C7, counterexample to the claim as stated: the response has headers
but no content-type header; instead of falling back to a guess from the
URL and selecting a handler or raw bytes, run raises AttributeError and
the job never reaches the save step (local_path stays None). -/
theorem C7_missing_content_type_counterexample :
    (DownloadProcessor.run exampleJobPathA exampleOptions
        (FetchOutcome.resp exampleResponseNoCT) FS.emptyFS).outcome
      = RunReturn.raised RunError.attributeError ∧
    (DownloadProcessor.run exampleJobPathA exampleOptions
        (FetchOutcome.resp exampleResponseNoCT) FS.emptyFS).job.local_path
      = none := by
  refine ⟨?_, ?_⟩ <;> with_unfolding_all rfl

/-- C8, amended.  When the computed local path points at an existing
file, overwrites are disallowed and the final content is present, save
logs, marks written False and finished True, returns True, and leaves
the filesystem untouched.  The claim omitted the final-content premise:
for a job in the same situation whose final_content is unset, save
instead returns False without setting any flag (see the
counterexample). -/
theorem C8_save_no_overwrite_amended (fs : FS) (job : DownloadJob) (p : String)
    (hp : job.local_path = some p) (hex : fs.existsPath p = true)
    (hov : job.allow_overwrites = false) (hfc : job.final_content ≠ PyVal.pynone) :
    BaseProcessor.save fs job
      = (fs, { job with written := false, finished := true }, SaveReturn.ret true) := by
  simp [BaseProcessor.save, hp, hex, hov, hfc]

/-- C8, witness for the amended theorem at a concrete job with string
content, a pre-existing target file and overwrites disallowed. -/
theorem C8_save_no_overwrite_amended_witness :
    exampleJobSave.local_path = some "/tmp/mirror/a" ∧
    exampleFSWithA.existsPath "/tmp/mirror/a" = true ∧
    exampleJobSave.allow_overwrites = false ∧
    BaseProcessor.save exampleFSWithA exampleJobSave
      = (exampleFSWithA, { exampleJobSave with written := false, finished := true },
         SaveReturn.ret true) :=
  ⟨by with_unfolding_all rfl, by with_unfolding_all rfl, by with_unfolding_all rfl,
   C8_save_no_overwrite_amended exampleFSWithA exampleJobSave "/tmp/mirror/a"
     (by with_unfolding_all rfl) (by with_unfolding_all rfl) (by with_unfolding_all rfl)
     (of_decide_eq_true (by with_unfolding_all rfl))⟩

/-- C8, counterexample to the claim as stated: this job satisfies the
premise of the claim (its local path refers to an existing file and
overwrites are disallowed) but its final content is unset, and save
returns False with the job unchanged, not True with written False and
finished True. -/
theorem C8_save_counterexample :
    exampleFSWithA.existsPath "/tmp/mirror/a" = true ∧
    exampleJobSaveNoContent.local_path = some "/tmp/mirror/a" ∧
    exampleJobSaveNoContent.allow_overwrites = false ∧
    BaseProcessor.save exampleFSWithA exampleJobSaveNoContent
      = (exampleFSWithA, exampleJobSaveNoContent, SaveReturn.ret false) ∧
    exampleJobSaveNoContent.finished = false := by
  refine ⟨?_, ?_, ?_, ?_, ?_⟩ <;> with_unfolding_all rfl

/-- C9.  Every target reference whose parsed network location is
nonempty and differs case-insensitively from the origin domain is
rejected by find_absolute_reference, whatever the https mode: an unknown
scheme is rejected outright, and for the empty, http and https schemes
the foreign-netloc check returns None. -/
theorem C9_cross_origin_reject (target : ParseResult) (domain : String)
    (remote_url : ParseResult) (https_mode : Nat) (base : Option ParseResult)
    (hn : target.netloc ≠ "") (hd : target.netloc.toLower ≠ domain.toLower) :
    find_absolute_reference target domain remote_url https_mode base = none := by
  simp only [find_absolute_reference, find_absolute_reference_rest]
  split_ifs <;> first | rfl | tauto

/-- C9, witness at a concrete cross-origin reference: a target on
other.example seen from a page on example.com is rejected. -/
theorem C9_cross_origin_reject_witness :
    exampleTargetOther.netloc ≠ "" ∧
    find_absolute_reference exampleTargetOther "example.com"
      exampleRemoteHttps 0 none = none :=
  ⟨of_decide_eq_true (by with_unfolding_all rfl),
   C9_cross_origin_reject exampleTargetOther "example.com" exampleRemoteHttps 0 none
     (of_decide_eq_true (by with_unfolding_all rfl))
     (of_decide_eq_true (by with_unfolding_all rfl))⟩

theorem find?_map_update {α : Type} (d : List (String × α)) (k : String) (v : α) :
    List.find? (fun kv => kv.1 == k)
        (d.map (fun kv => if kv.1 == k then (k, v) else kv))
      = if d.any (fun kv => kv.1 == k) then some (k, v) else none := by
  induction d with
  | nil => rfl
  | cons kv t ih =>
      simp only [List.map_cons, List.any_cons, List.find?_cons]
      by_cases h : (kv.1 == k) = true
      · simp [h]
      · have h2 : (kv.1 == k) = false := by rwa [Bool.not_eq_true] at h
        simp only [h2, Bool.false_or, Bool.false_eq_true, if_false]
        simpa [h2] using ih

theorem find?_append_none {α : Type} (d : List (String × α)) (k : String) (v : α)
    (h : (d.any fun kv => kv.1 == k) = false) :
    List.find? (fun kv => kv.1 == k) (d ++ [(k, v)]) = some (k, v) := by
  induction d with
  | nil => simp [List.find?_cons]
  | cons kv t ih =>
      simp only [List.any_cons, Bool.or_eq_false_iff] at h
      simp only [List.cons_append, List.find?_cons, h.1, Bool.false_eq_true, if_false]
      exact ih h.2

theorem pyDictLookup_insert {α : Type} (d : List (String × α)) (k : String) (v : α) :
    pyDictLookup (pyDictInsert d k v) k = some v := by
  unfold pyDictInsert pyDictLookup
  by_cases h : (d.any fun kv => kv.1 == k) = true
  · rw [if_pos h, find?_map_update, if_pos h]
    rfl
  · have h2 : (d.any fun kv => kv.1 == k) = false := by rwa [Bool.not_eq_true] at h
    rw [if_neg h, find?_append_none d k v h2]
    rfl

theorem pyEqStrJob_any_false (l : List String) (j : DownloadJob) :
    (l.any fun s => pyEqStrJob s j) = false := by
  induction l with
  | nil => rfl
  | cons a t ih => simp [pyEqStrJob, List.any_cons, ih]

/-- C10, amended.  In default (non-full) mode, complete with a
DownloadJob item passes both argument checks and performs the storage
write unconditionally: a never-reserved key is still inserted, and a key
already present in completed is silently overwritten with the new
response code.  The reserved list is never shrunk by a job item, because
the Python membership test compares a DownloadJob against the stored
strings and always fails.  But complete is not raise-free: the final
task_done call raises ValueError exactly when complete has already been
called as often as put (the unfinished counter is zero); the storage
mutation survives the raise. -/
theorem C10_complete_amended (m : JobManager) (j : DownloadJob) (value : Option Int) :
    (m.complete (CompleteItem.job j) value).1.reserved = m.reserved ∧
    (m.complete (CompleteItem.job j) value).1.queue = m.queue ∧
    pyDictLookup (m.complete (CompleteItem.job j) value).1.storage j.remote_path
      = some j.response_code ∧
    ((m.complete (CompleteItem.job j) value).2 = none ↔ m.unfinished ≠ 0) := by
  by_cases hu : m.unfinished = 0
  · simp [JobManager.complete, pyEqStrJob_any_false, hu, pyDictLookup_insert]
  · simp [JobManager.complete, pyEqStrJob_any_false, hu, pyDictLookup_insert]

/-- C10, counterexample to the claim as stated: complete does raise.  On
a fresh manager (no put was ever made, the unfinished counter is zero),
complete with a job inserts the storage entry but then task_done raises
ValueError, so complete is not raise-free even in default mode. -/
theorem C10_complete_counterexample :
    (JobManager.mkDefault.complete (CompleteItem.job exampleJobHttp) none).2
      = some CompleteError.taskDoneTooMany ∧
    (JobManager.mkDefault.complete (CompleteItem.job exampleJobHttp) none).1.storage
      = [("http://example.com/", none)] := by
  refine ⟨?_, ?_⟩ <;> with_unfolding_all rfl
